import Mathlib

/-!
Verification of the single-flight async fetch coordinator in
`src/asyncgit/src/fetch.rs` (struct `AsyncFetch`).

The Rust code shares three independently locked slots
(`state : Option<FetchState>`, `last_result : Option<(usize, String)>`,
`progress : Option<ProgressNotification>`) between a caller thread, a
spawned task thread, and a relay thread.  We embed the code shallowly:

* the three shared slots become a `SharedState` record that every
  operation threads explicitly;
* each `Mutex::lock()` can fail when the lock is poisoned; a `LockEnv`
  (resp. `ThreadEnv`) record of booleans says which lock acquisitions
  fail and how the external calls (the blocking `fetch`, the sentinel
  channel send, the relay thread join, the completion-channel send)
  turn out;
* the body of the thread spawned by `request` additionally produces a
  list of `Event`s recording, in order, the externally observable
  actions of one fetch cycle, so that temporal claims become statements
  about that list;
* a `Bool` component records whether the thread panicked (the Rust code
  uses `.expect(..)` on `clear_request` and on the completion send).

The race window between `is_pending` and `set_request` (the state lock
is released in between) is modelled by an `interfere` function applied
to the state slot at exactly that point in `request`.
-/

/-- Basic auth credential, from `asyncgit::sync::cred::BasicAuthCredential`
(only carried opaquely by this file's code). -/
structure BasicAuthCredential where
  username : Option String
  password : Option String
deriving DecidableEq, Repr

/-- `FetchRequest` from src/asyncgit/src/fetch.rs lines 16-24. -/
structure FetchRequest where
  remote : String
  branch : String
  basic_credential : Option BasicAuthCredential
deriving DecidableEq, Repr

/-- `FetchState` from src/asyncgit/src/fetch.rs lines 26-29: wraps the
active request; its presence is the busy indicator. -/
structure FetchState where
  request : FetchRequest
deriving DecidableEq, Repr

/-- Modelled from the spec: progress events are opaque values flowing
through the progress channel; `Done` is the designated termination
sentinel (the defining file `sync/remotes/push.rs` is not among the
sources, and this file only ever constructs `Done`). -/
inductive ProgressNotification where
  | Done : ProgressNotification
  | Other : Nat → ProgressNotification
deriving DecidableEq, Repr

/-- Modelled from the spec: the error type of the crate
(`asyncgit::error::Error`, not among the sources).  `Generic` is the
constructor used by `set_request`; the other constructors stand for the
send, join and lock-poisoning failures this file can meet. -/
inductive Error where
  | Generic : String → Error
  | SendError : Error
  | JoinError : Error
  | PoisonError : Error
deriving DecidableEq, Repr

/-- Modelled from the spec: the display text of an error
(`e.to_string()` in `set_result`); per Scenario B a fetch failure
"auth failed" is stored as `(0, "auth failed")`, so `Generic` displays
its message. -/
def Error.toMessage : Error → String
  | Error.Generic msg => msg
  | Error.SendError => "send error"
  | Error.JoinError => "join error"
  | Error.PoisonError => "poison error"

/-- Modelled from the spec: the public progress snapshot type
(`RemoteProgress`, defined in a file not among the sources); this file
only converts the stored raw event into it (`progress.clone().into()`). -/
structure RemoteProgress where
  raw : ProgressNotification
deriving DecidableEq, Repr

/-- Modelled from the spec: the `Into` conversion used by
`AsyncFetch::progress`; opaque wrapping of the raw event. -/
def RemoteProgress.ofNotification (p : ProgressNotification) : RemoteProgress :=
  ⟨p⟩

/-- The three shared slots of `AsyncFetch`
(src/asyncgit/src/fetch.rs lines 32-37). -/
structure SharedState where
  state : Option FetchState
  last_result : Option (Nat × String)
  progress : Option ProgressNotification
deriving DecidableEq, Repr

/-- Which of the three locks is poisoned, i.e. which `lock()` calls
fail, during one coordinator operation. -/
structure LockEnv where
  statePoisoned : Bool
  resultPoisoned : Bool
  progressPoisoned : Bool
deriving DecidableEq, Repr

/-- All locks healthy. -/
def goodLocks : LockEnv :=
  { statePoisoned := false, resultPoisoned := false, progressPoisoned := false }

/-- Outcomes of the external interactions of one spawned task thread. -/
structure ThreadEnv where
  /-- Result of the blocking external `fetch` call (mocked). -/
  fetchResult : Except Error Nat
  /-- Whether `progress_sender.send(ProgressNotification::Done)` succeeds. -/
  sentinelSendOk : Bool
  /-- Whether `handle.join()` succeeds. -/
  relayJoinOk : Bool
  /-- Whether the `last_result` lock acquisition succeeds. -/
  resultPoisoned : Bool
  /-- Whether the `state` lock acquisition succeeds. -/
  statePoisoned : Bool
  /-- Whether `sender.send(AsyncGitNotification::Fetch)` succeeds. -/
  notifySendOk : Bool
deriving Repr

/-- Externally observable actions of one fetch cycle, in order. -/
inductive Event where
  | SpawnRelay : Event
  | FetchCall : String → Event
  | SendSentinel : Event
  | JoinRelay : Event
  | WriteResult : Event
  | ClearState : Event
  | Notify : Event
deriving DecidableEq, Repr

/-- `AsyncFetch::is_pending` (lines 51-54): locks `state`, returns
whether a `FetchState` is present. -/
def is_pending (env : LockEnv) (s : SharedState) : Except Error Bool :=
  if env.statePoisoned then Except.error Error.PoisonError
  else Except.ok s.state.isSome

/-- `AsyncFetch::last_result` (lines 57-60): locks `last_result`,
returns a clone of the slot. -/
def last_result (env : LockEnv) (s : SharedState) :
    Except Error (Option (Nat × String)) :=
  if env.resultPoisoned then Except.error Error.PoisonError
  else Except.ok s.last_result

/-- `AsyncFetch::progress` (lines 63-66): locks `progress`, converts
the stored raw event into the public snapshot type. -/
def progress (env : LockEnv) (s : SharedState) :
    Except Error (Option RemoteProgress) :=
  if env.progressPoisoned then Except.error Error.PoisonError
  else Except.ok (s.progress.map RemoteProgress.ofNotification)

/-- `AsyncFetch::set_request` (lines 108-120): locks `state`; errors
with `Generic "pending request"` if a state is already installed,
otherwise installs a `FetchState` wrapping a clone of `params`.
Returns the (possibly updated) slot together with the call's result. -/
def set_request (poisoned : Bool) (state : Option FetchState)
    (params : FetchRequest) : Option FetchState × Except Error Unit :=
  if poisoned then (state, Except.error Error.PoisonError)
  else if state.isSome then
    (state, Except.error (Error.Generic "pending request"))
  else (some { request := params }, Except.ok ())

/-- `AsyncFetch::clear_request` (lines 122-130): locks `state` and
sets the slot to `None`. -/
def clear_request (poisoned : Bool) (state : Option FetchState) :
    Option FetchState × Except Error Unit :=
  if poisoned then (state, Except.error Error.PoisonError)
  else (none, Except.ok ())

/-- `AsyncFetch::set_result` (lines 132-147): locks `last_result` and
overwrites it with `(bytes, "")` on success or `(0, e.to_string())` on
failure of the fetch. -/
def set_result (poisoned : Bool) (last : Option (Nat × String))
    (res : Except Error Nat) : Option (Nat × String) × Except Error Unit :=
  if poisoned then (last, Except.error Error.PoisonError)
  else
    match res with
    | Except.ok bytes => (some (bytes, ""), Except.ok ())
    | Except.error e => (some (0, e.toMessage), Except.ok ())

/-- Modelled from the spec: `RemoteProgress::set_progress` (defined in a
file not among the sources) stores the given value into the shared
progress slot under its lock; `request` calls it with `None`. -/
def set_progress (poisoned : Bool) (slot : Option ProgressNotification)
    (v : Option ProgressNotification) :
    Option ProgressNotification × Except Error Unit :=
  if poisoned then (slot, Except.error Error.PoisonError)
  else (v, Except.ok ())

/-- `AsyncFetch::request` (lines 69-106) up to and including the spawn
decision.  Returns the shared state as left behind by the caller thread
and, on success, `some params` when a task thread was spawned for
`params` (the spawn is the last action before `Ok(())`) or `none` when
the call was the silent pending no-op.  `interfere` is the value the
`state` slot has when `set_request` re-acquires the lock: the lock is
released between the pending check and the install, so another thread
may have changed the slot in between (`interfere = id` means no
interference). -/
def request (env : LockEnv) (interfere : Option FetchState → Option FetchState)
    (s : SharedState) (params : FetchRequest) :
    SharedState × Except Error (Option FetchRequest) :=
  match is_pending env s with
  | Except.error e => (s, Except.error e)
  | Except.ok true => (s, Except.ok none)
  | Except.ok false =>
    let s1 : SharedState := { s with state := interfere s.state }
    match set_request env.statePoisoned s1.state params with
    | (st, Except.error e) => ({ s1 with state := st }, Except.error e)
    | (st, Except.ok _) =>
      let s2 : SharedState := { s1 with state := st }
      match set_progress env.progressPoisoned s2.progress none with
      | (pr, Except.error e) => ({ s2 with progress := pr }, Except.error e)
      | (pr, Except.ok _) =>
        ({ s2 with progress := pr }, Except.ok (some params))

/-- `AsyncFetch::threaded_fetch` (lines 149-180): opens the progress
channel, spawns the relay, runs the blocking fetch, pushes the `Done`
sentinel, joins the relay, stores the result, clears the state.  Each
`?` failure aborts the remaining steps.  Returns the shared state, the
trace of performed actions, and the function's `Result`. -/
def threaded_fetch (env : ThreadEnv) (s : SharedState) (params : FetchRequest) :
    SharedState × List Event × Except Error Unit :=
  let evs0 : List Event :=
    [Event.SpawnRelay, Event.FetchCall params.branch, Event.SendSentinel]
  if env.sentinelSendOk = false then (s, evs0, Except.error Error.SendError)
  else if env.relayJoinOk = false then
    (s, evs0 ++ [Event.JoinRelay], Except.error Error.JoinError)
  else
    let evs1 := evs0 ++ [Event.JoinRelay]
    match set_result env.resultPoisoned s.last_result env.fetchResult with
    | (last, Except.error e) =>
      ({ s with last_result := last }, evs1, Except.error e)
    | (last, Except.ok _) =>
      let s1 : SharedState := { s with last_result := last }
      let evs2 := evs1 ++ [Event.WriteResult]
      match clear_request env.statePoisoned s1.state with
      | (st, Except.error e) =>
        ({ s1 with state := st }, evs2, Except.error e)
      | (st, Except.ok _) =>
        ({ s1 with state := st }, evs2 ++ [Event.ClearState], Except.ok ())

/-- The closure run by the thread spawned in `request` (lines 85-103):
runs `threaded_fetch`; on its failure clears the state slot with
`.expect` (panicking if that lock is poisoned, in which case nothing
further happens); finally sends the completion notification with
`.expect` (panicking if the send fails).  The `Bool` is true when the
thread panicked. -/
def spawned_task (env : ThreadEnv) (s : SharedState) (params : FetchRequest) :
    SharedState × List Event × Bool :=
  match threaded_fetch env s params with
  | (s1, evs, Except.ok _) =>
    if env.notifySendOk then (s1, evs ++ [Event.Notify], false)
    else (s1, evs, true)
  | (s1, evs, Except.error _) =>
    match clear_request env.statePoisoned s1.state with
    | (_, Except.error _) => (s1, evs, true)
    | (st, Except.ok _) =>
      let s2 : SharedState := { s1 with state := st }
      if env.notifySendOk then
        (s2, evs ++ [Event.ClearState, Event.Notify], false)
      else (s2, evs ++ [Event.ClearState], true)

/-- One full cycle, sequentialized: the caller's `request` followed, if
a task thread was spawned, by that thread running to completion with the
outcomes in `tenv`.  Returns the final shared state, the task thread's
trace, and `request`'s synchronous return value. -/
def run_cycle (env : LockEnv) (tenv : ThreadEnv) (s : SharedState)
    (params : FetchRequest) :
    SharedState × List Event × Except Error (Option FetchRequest) :=
  match request env id s params with
  | (s1, Except.error e) => (s1, [], Except.error e)
  | (s1, Except.ok none) => (s1, [], Except.ok none)
  | (s1, Except.ok (some p)) =>
    let r := spawned_task tenv s1 p
    (r.1, r.2.1, Except.ok (some p))

/-- The value `set_result` stores for a given fetch outcome. -/
def storedResult (res : Except Error Nat) : Option (Nat × String) :=
  match res with
  | Except.ok bytes => some (bytes, "")
  | Except.error e => some (0, e.toMessage)

/-- Number of completion notifications in a trace. -/
def countNotify : List Event → Nat
  | [] => 0
  | Event.Notify :: rest => countNotify rest + 1
  | _ :: rest => countNotify rest

/-- Concrete request used by the scenarios: `{remote:"origin", branch:"main",
credential:none}`. -/
def reqMain : FetchRequest :=
  { remote := "origin", branch := "main", basic_credential := none }

/-- A second, different concrete request. -/
def reqDev : FetchRequest :=
  { remote := "origin", branch := "develop", basic_credential := none }

/-- A freshly constructed coordinator: all three slots empty. -/
def idleState : SharedState :=
  { state := none, last_result := none, progress := none }

/-- A coordinator with a fetch for `reqMain` in flight, a previous result
and a non-empty progress snapshot. -/
def busyState : SharedState :=
  { state := some { request := reqMain }, last_result := some (7, ""),
    progress := some (ProgressNotification.Other 3) }

/-- A task-thread environment where every lock and channel is healthy and
the external fetch returns `res`. -/
def goodThread (res : Except Error Nat) : ThreadEnv :=
  { fetchResult := res, sentinelSendOk := true, relayJoinOk := true,
    resultPoisoned := false, statePoisoned := false, notifySendOk := true }

/-- Claim C1: a `request` issued while a fetch is in flight
(`is_pending` true) returns success immediately, spawns no task thread
(the returned spawn component is `none`), and leaves the whole shared
state — the in-flight parameters, `last_result` and the progress
snapshot — unchanged, whatever interference the race window sees. -/
theorem request_while_pending_is_silent_noop
    (env : LockEnv) (interfere : Option FetchState → Option FetchState)
    (s : SharedState) (params : FetchRequest)
    (hlock : env.statePoisoned = false)
    (hpending : s.state.isSome = true) :
    request env interfere s params = (s, Except.ok none) := by
  simp [request, is_pending, hlock, hpending]

/-- Witness for C1 at a concrete busy coordinator. -/
theorem request_while_pending_is_silent_noop_witness :
    request goodLocks id busyState reqDev = (busyState, Except.ok none) :=
  request_while_pending_is_silent_noop goodLocks id busyState reqDev rfl rfl

/-- Claim C2: the state slot holds at most one `FetchState`;
`set_request` installs a fresh one only when the slot is empty and
otherwise refuses with an error and leaves the slot untouched;
`clear_request` only ever empties the slot; and the task thread
(`threaded_fetch`) never installs a state, it only clears it. -/
theorem at_most_one_fetch_state
    (poisoned : Bool) (st : Option FetchState) (params : FetchRequest)
    (tenv : ThreadEnv) (s : SharedState) (p : FetchRequest) :
    ((set_request poisoned st params).1 = st ∨
      (st = none ∧
        (set_request poisoned st params).1 = some { request := params }))
    ∧ (st.isSome = true →
        (set_request poisoned st params).1 = st ∧
        ∃ e, (set_request poisoned st params).2 = Except.error e)
    ∧ ((clear_request poisoned st).1 = none ∨ (clear_request poisoned st).1 = st)
    ∧ ((threaded_fetch tenv s p).1.state = none ∨
        (threaded_fetch tenv s p).1.state = s.state) := by
  refine ⟨?_, ?_, ?_, ?_⟩
  · cases poisoned <;> cases st <;> simp [set_request]
  · intro h
    cases poisoned <;> cases st <;> simp_all [set_request]
  · cases poisoned <;> simp [clear_request]
  · rcases tenv with ⟨fr, ssk, rjk, rp, sp, nok⟩
    cases ssk <;> cases rjk <;> cases rp <;> cases sp <;> cases fr <;>
      simp [threaded_fetch, set_result, clear_request]

/-- Witness for C2: `set_request` refuses to overwrite the in-flight
state of `busyState` and leaves it unchanged. -/
theorem at_most_one_fetch_state_witness :
    (set_request false (some { request := reqMain }) reqDev).1 =
      some { request := reqMain } ∧
    ∃ e, (set_request false (some { request := reqMain }) reqDev).2 =
      Except.error e :=
  (at_most_one_fetch_state false (some { request := reqMain }) reqDev
    (goodThread (Except.ok 0)) idleState reqMain).2.1 rfl

/-- Claim C3: when the pending check sees an idle coordinator but the
state slot is concurrently filled with `st` before `set_request`
re-acquires the lock, `request` returns the distinct busy error
`Generic "pending request"` synchronously (so no spawn component is
produced) and the slot still holds `st`, not the new parameters. -/
theorem busy_race_surfaces_error
    (env : LockEnv) (s : SharedState) (params : FetchRequest) (st : FetchState)
    (hlock : env.statePoisoned = false)
    (hidle : s.state = none) :
    request env (fun _ => some st) s params =
      ({ s with state := some st },
        Except.error (Error.Generic "pending request")) := by
  simp [request, is_pending, set_request, hlock, hidle]

/-- Witness for C3: a concrete race where `reqMain`'s state is installed
between `reqDev`'s pending check and its install. -/
theorem busy_race_surfaces_error_witness :
    request goodLocks (fun _ => some { request := reqMain }) idleState reqDev =
      ({ idleState with state := some { request := reqMain } },
        Except.error (Error.Generic "pending request")) :=
  busy_race_surfaces_error goodLocks idleState reqDev { request := reqMain }
    rfl rfl

/-- Claim C4: `set_result` stores `(bytes, "")` when the external fetch
succeeded with `bytes` transferred and `(0, errorText)` when it failed;
in particular a full cycle with a mocked success of 1500 bytes ends with
`last_result = (1500, "")` and not pending, and a mocked failure
"auth failed" ends with `last_result = (0, "auth failed")` and not
pending. -/
theorem stored_result_matches_outcome :
    (∀ (last : Option (Nat × String)) (bytes : Nat),
      set_result false last (Except.ok bytes) = (some (bytes, ""), Except.ok ()))
    ∧ (∀ (last : Option (Nat × String)) (e : Error),
      set_result false last (Except.error e) =
        (some (0, e.toMessage), Except.ok ()))
    ∧ last_result goodLocks
        (run_cycle goodLocks (goodThread (Except.ok 1500)) idleState reqMain).1 =
        Except.ok (some (1500, ""))
    ∧ is_pending goodLocks
        (run_cycle goodLocks (goodThread (Except.ok 1500)) idleState reqMain).1 =
        Except.ok false
    ∧ last_result goodLocks
        (run_cycle goodLocks
          (goodThread (Except.error (Error.Generic "auth failed")))
          idleState reqMain).1 =
        Except.ok (some (0, "auth failed"))
    ∧ is_pending goodLocks
        (run_cycle goodLocks
          (goodThread (Except.error (Error.Generic "auth failed")))
          idleState reqMain).1 =
        Except.ok false := by
  refine ⟨?_, ?_, rfl, rfl, rfl, rfl⟩
  · intro last bytes
    rfl
  · intro last e
    rfl

/-- Claim C5: a failure of the external fetch is never propagated
synchronously: starting from an idle coordinator, `request`'s
synchronous return value is success-with-spawn whatever the task
thread's environment turns out to be, and with a failing fetch and
healthy plumbing the failure shows up only in `last_result`, as
`(0, message)`. -/
theorem fetch_failure_is_asynchronous
    (tenv : ThreadEnv) (s : SharedState) (params : FetchRequest) (e : Error)
    (hidle : s.state = none)
    (hfetch : tenv.fetchResult = Except.error e)
    (hsend : tenv.sentinelSendOk = true) (hjoin : tenv.relayJoinOk = true)
    (hres : tenv.resultPoisoned = false) (hst : tenv.statePoisoned = false) :
    (∀ tenv2 : ThreadEnv,
      (run_cycle goodLocks tenv2 s params).2.2 = Except.ok (some params))
    ∧ last_result goodLocks (run_cycle goodLocks tenv s params).1 =
        Except.ok (some (0, e.toMessage)) := by
  constructor
  · intro tenv2
    simp [run_cycle, request, is_pending, set_request, set_progress, goodLocks,
      hidle]
  · cases hnot : tenv.notifySendOk <;>
      simp [run_cycle, request, is_pending, set_request, set_progress,
        spawned_task, threaded_fetch, set_result, clear_request, last_result,
        goodLocks, hidle, hfetch, hsend, hjoin, hres, hst, hnot]

/-- Witness for C5: the "auth failed" scenario observed via
`last_result` only. -/
theorem fetch_failure_is_asynchronous_witness :
    last_result goodLocks
      (run_cycle goodLocks (goodThread (Except.error (Error.Generic "auth failed")))
        idleState reqMain).1 =
      Except.ok (some (0, "auth failed")) :=
  (fetch_failure_is_asynchronous
    (goodThread (Except.error (Error.Generic "auth failed"))) idleState reqMain
    (Error.Generic "auth failed") rfl rfl rfl rfl rfl rfl).2

/-- A coordinator that is idle again after an earlier cycle, with a
leftover non-empty progress snapshot and a previous result. -/
def afterFirstCycleState : SharedState :=
  { state := none, last_result := some (7, ""),
    progress := some (ProgressNotification.Other 3) }

/-- Claim C6: whenever `request` accepts a new request (it returns
success and spawns), the progress slot has been reset: the state left
behind by `request` has an empty progress slot and `progress()` reads
back `none`, whatever snapshot the previous request had left. -/
theorem progress_reset_on_accept
    (env : LockEnv) (interfere : Option FetchState → Option FetchState)
    (s : SharedState) (params p : FetchRequest)
    (h : (request env interfere s params).2 = Except.ok (some p)) :
    (request env interfere s params).1.progress = none
    ∧ progress env (request env interfere s params).1 = Except.ok none := by
  cases hsp : env.statePoisoned with
  | true => simp [request, is_pending, hsp] at h
  | false =>
    cases hpend : s.state.isSome with
    | true => simp [request, is_pending, hsp, hpend] at h
    | false =>
      cases hint : (interfere s.state).isSome with
      | true => simp [request, is_pending, set_request, hsp, hpend, hint] at h
      | false =>
        cases hpp : env.progressPoisoned with
        | true =>
          simp [request, is_pending, set_request, set_progress, hsp, hpend,
            hint, hpp] at h
        | false =>
          simp [request, is_pending, set_request, set_progress, progress,
            hsp, hpend, hint, hpp]

/-- Witness for C6: a new request accepted on a coordinator whose
previous snapshot was non-empty reads back `none`. -/
theorem progress_reset_on_accept_witness :
    (request goodLocks id afterFirstCycleState reqDev).1.progress = none
    ∧ progress goodLocks (request goodLocks id afterFirstCycleState reqDev).1 =
      Except.ok none :=
  progress_reset_on_accept goodLocks id afterFirstCycleState reqDev reqDev rfl

/-- A task environment where the push of the termination sentinel fails
(the relay's receiving end is gone) but everything else is healthy and
the external fetch returned 1500 bytes. -/
def sentinelFailThread : ThreadEnv :=
  { fetchResult := Except.ok 1500, sentinelSendOk := false, relayJoinOk := true,
    resultPoisoned := false, statePoisoned := false, notifySendOk := true }

/-- The shared state while `reqMain`'s cycle is running, with the
previous cycle's result still stored. -/
def runningMainState : SharedState :=
  { state := some { request := reqMain },
    last_result := some (0, "auth failed"), progress := none }

/-- Counterexample to claim C7 as stated: in this cycle the task thread
emits the completion notification although the cycle's result (a fetch
success of 1500 bytes) was never written — `WriteResult` is absent from
the trace and `last_result` still holds the previous cycle's value, not
`storedResult` of this cycle's fetch outcome. -/
theorem notify_without_result_write :
    countNotify
      (spawned_task sentinelFailThread runningMainState reqMain).2.1 = 1
    ∧ Event.WriteResult ∉
        (spawned_task sentinelFailThread runningMainState reqMain).2.1
    ∧ (spawned_task sentinelFailThread runningMainState reqMain).1.last_result =
        some (0, "auth failed")
    ∧ (spawned_task sentinelFailThread runningMainState reqMain).1.last_result ≠
        storedResult sentinelFailThread.fetchResult := by
  decide

/-- Claim C7 (amended): provided the cycle's internal plumbing succeeds
(sentinel push, relay join, result lock, state lock, completion send),
the task thread's trace is exactly relay spawn, fetch call, sentinel
push, relay join, result write, state clear, notification — so the
notification comes last, strictly after the result write and the state
clear — and the shared state at that point holds this cycle's outcome
with the state slot cleared. -/
theorem notify_after_terminal_state
    (tenv : ThreadEnv) (s : SharedState) (params : FetchRequest)
    (hsend : tenv.sentinelSendOk = true) (hjoin : tenv.relayJoinOk = true)
    (hres : tenv.resultPoisoned = false) (hst : tenv.statePoisoned = false)
    (hnot : tenv.notifySendOk = true) :
    spawned_task tenv s params =
      ({ s with last_result := storedResult tenv.fetchResult, state := none },
        [Event.SpawnRelay, Event.FetchCall params.branch, Event.SendSentinel,
          Event.JoinRelay, Event.WriteResult, Event.ClearState, Event.Notify],
        false) := by
  cases hfr : tenv.fetchResult <;>
    simp [spawned_task, threaded_fetch, set_result, clear_request,
      storedResult, hsend, hjoin, hres, hst, hnot, hfr]

/-- Witness for the amended C7 at a concrete healthy cycle. -/
theorem notify_after_terminal_state_witness :
    spawned_task (goodThread (Except.ok 1500)) runningMainState reqMain =
      ({ runningMainState with
          last_result := storedResult (Except.ok 1500), state := none },
        [Event.SpawnRelay, Event.FetchCall "main", Event.SendSentinel,
          Event.JoinRelay, Event.WriteResult, Event.ClearState, Event.Notify],
        false) :=
  notify_after_terminal_state (goodThread (Except.ok 1500)) runningMainState
    reqMain rfl rfl rfl rfl rfl

/-- Claim C8: with a healthy state lock and completion channel, the
task thread emits exactly one completion notification and clears the
state slot, whatever the fetch outcome and even when the sentinel push,
the relay join or the result lock fails; and a `request` that is the
silent pending no-op runs no task thread, so its cycle trace is empty
and carries no notification. -/
theorem exactly_one_notification
    (tenv : ThreadEnv) (s : SharedState) (params : FetchRequest)
    (env : LockEnv) (tenv2 : ThreadEnv) (s2 : SharedState)
    (params2 : FetchRequest)
    (hst : tenv.statePoisoned = false) (hnot : tenv.notifySendOk = true)
    (hlock : env.statePoisoned = false) (hpend : s2.state.isSome = true) :
    (countNotify (spawned_task tenv s params).2.1 = 1
      ∧ (spawned_task tenv s params).1.state = none)
    ∧ (run_cycle env tenv2 s2 params2).2.1 = [] := by
  constructor
  · cases hssk : tenv.sentinelSendOk <;> cases hrjk : tenv.relayJoinOk <;>
      cases hrp : tenv.resultPoisoned <;> cases hfr : tenv.fetchResult <;>
      simp [spawned_task, threaded_fetch, set_result, clear_request,
        countNotify, hssk, hrjk, hrp, hfr, hst, hnot]
  · simp [run_cycle, request, is_pending, hlock, hpend]

/-- Witness for C8: one notification for a failing join, and an empty
trace for a no-op request on a busy coordinator. -/
theorem exactly_one_notification_witness :
    (countNotify
        (spawned_task
          { fetchResult := Except.ok 9, sentinelSendOk := true,
            relayJoinOk := false, resultPoisoned := false,
            statePoisoned := false, notifySendOk := true }
          runningMainState reqMain).2.1 = 1
      ∧ (spawned_task
          { fetchResult := Except.ok 9, sentinelSendOk := true,
            relayJoinOk := false, resultPoisoned := false,
            statePoisoned := false, notifySendOk := true }
          runningMainState reqMain).1.state = none)
    ∧ (run_cycle goodLocks (goodThread (Except.ok 9)) busyState reqDev).2.1 =
        [] :=
  exactly_one_notification
    { fetchResult := Except.ok 9, sentinelSendOk := true, relayJoinOk := false,
      resultPoisoned := false, statePoisoned := false, notifySendOk := true }
    runningMainState reqMain goodLocks (goodThread (Except.ok 9)) busyState
    reqDev rfl rfl rfl rfl

/-- Claim C9: whatever the environment, the task thread's trace starts
with relay spawn, the fetch call and the sentinel push — the sentinel
is pushed right after the fetch returns, on success and failure alike —
and whenever the result is stored, the relay join lies between the
sentinel push and the result write. -/
theorem sentinel_then_join_before_store
    (tenv : ThreadEnv) (s : SharedState) (params : FetchRequest) :
    ((threaded_fetch tenv s params).2.1.take 3 =
      [Event.SpawnRelay, Event.FetchCall params.branch, Event.SendSentinel])
    ∧ (Event.WriteResult ∈ (threaded_fetch tenv s params).2.1 →
      (threaded_fetch tenv s params).2.1.take 5 =
        [Event.SpawnRelay, Event.FetchCall params.branch, Event.SendSentinel,
          Event.JoinRelay, Event.WriteResult]) := by
  cases hssk : tenv.sentinelSendOk <;> cases hrjk : tenv.relayJoinOk <;>
    cases hrp : tenv.resultPoisoned <;> cases hsp : tenv.statePoisoned <;>
    cases hfr : tenv.fetchResult <;>
    simp [threaded_fetch, set_result, clear_request, hssk, hrjk, hrp, hsp, hfr]

/-- Witness for C9: a healthy cycle stores the result only after the
join, which follows the sentinel push. -/
theorem sentinel_then_join_before_store_witness :
    (threaded_fetch (goodThread (Except.ok 5)) idleState reqMain).2.1.take 5 =
      [Event.SpawnRelay, Event.FetchCall "main", Event.SendSentinel,
        Event.JoinRelay, Event.WriteResult] :=
  (sentinel_then_join_before_store (goodThread (Except.ok 5)) idleState
    reqMain).2 (by decide)

/-- Claim C10: when the cycle fails internally after the fetch returned
— the sentinel push fails, the relay join fails, or the result lock is
poisoned — while the state lock and the completion channel are healthy,
the task thread leaves `last_result` exactly as it was (the finished
fetch's outcome is lost), still clears the state slot, and still emits
the single completion notification. -/
theorem internal_failure_keeps_old_result
    (tenv : ThreadEnv) (s : SharedState) (params : FetchRequest)
    (hst : tenv.statePoisoned = false) (hnot : tenv.notifySendOk = true)
    (hfail : tenv.sentinelSendOk = false ∨ tenv.relayJoinOk = false ∨
      tenv.resultPoisoned = true) :
    (spawned_task tenv s params).1.last_result = s.last_result
    ∧ (spawned_task tenv s params).1.state = none
    ∧ countNotify (spawned_task tenv s params).2.1 = 1 := by
  cases hssk : tenv.sentinelSendOk <;> cases hrjk : tenv.relayJoinOk <;>
    cases hrp : tenv.resultPoisoned
  all_goals
    first
    | (simp [spawned_task, threaded_fetch, set_result, clear_request,
        countNotify, hssk, hrjk, hrp, hst, hnot]
       done)
    | simp [hssk, hrjk, hrp] at hfail

/-- Witness for C10: the failed sentinel push of `sentinelFailThread`
leaves the previous "auth failed" result in place while the state is
cleared and one notification goes out. -/
theorem internal_failure_keeps_old_result_witness :
    (spawned_task sentinelFailThread runningMainState reqMain).1.last_result =
      runningMainState.last_result
    ∧ (spawned_task sentinelFailThread runningMainState reqMain).1.state = none
    ∧ countNotify
        (spawned_task sentinelFailThread runningMainState reqMain).2.1 = 1 :=
  internal_failure_keeps_old_result sentinelFailThread runningMainState reqMain
    rfl rfl (Or.inl rfl)
